import Mathlib

/-!
Shallow embedding of `src/runner/runner.rs` (the vllm.rs worker-runner
process). The single `main` function there performs: connection retry
loop, `ready` handshake, Ctrl-C handler registration, heartbeat spawn,
one-shot Init bootstrap answered by `InitAck(true)`, then the steady
state dispatch loop. External collaborators (model execution, the wire
codec, the OS) are modelled by an environment oracle `Env`; the embedding
computes the trace of observable events and the way the process ends.
-/

namespace Runner

/-- Sequence handles and model outputs are opaque payloads to the
runner control flow; we model them by `Nat` / `List Nat`. -/
abbrev Seq := Nat

abbrev Outputs := List Nat

/-- Bootstrap parameters carried by the `Init` message
(`vllm_rs::runner::InitRequest`); only fields the runner reads. -/
structure InitRequest where
  rank : Nat
  num_shards : Nat
  dev_id : Nat
  model_type : Nat
  model_pathes : List String
  is_gguf : Bool
  dtype : Nat
  econfig : Nat
  config : Nat
  is_rope_i : Bool
deriving Repr, DecidableEq

/-- The tagged message union `vllm_rs::runner::MessageType`. -/
inductive MessageType where
  | Init (init_req : InitRequest)
  | InitAck (ok : Bool)
  | RunPrefill (sequences : List Seq) (is_prefill : Bool)
  | RunDecode (sequences : List Seq) (is_prefill : Bool)
  | RunResponse (outputs : Outputs)
  | LoadingProgress (p : Nat)
  | FinishDecode (id : Nat)
  | Shutdown
deriving Repr, DecidableEq

/-- The only distinction the dispatch loop makes on a receive error is
`std::io::ErrorKind::UnexpectedEof` versus everything else. -/
inductive IoErrorKind where
  | unexpectedEof
  | other
deriving Repr, DecidableEq

/-- Result of one `receive_local` call. -/
abbrev RecvResult := Except IoErrorKind MessageType

instance : DecidableEq RecvResult := fun a b =>
  match a, b with
  | .ok x, .ok y =>
      if h : x = y then .isTrue (by rw [h]) else .isFalse (by simp [h])
  | .error x, .error y =>
      if h : x = y then .isTrue (by rw [h]) else .isFalse (by simp [h])
  | .ok _, .error _ => .isFalse (by simp)
  | .error _, .ok _ => .isFalse (by simp)

/-- Observable events of the runner process, in program order. -/
inductive Event where
  | logInfo (tag : String)
  | logWarn (tag : String)
  | logError (tag : String)
  | printLine (tag : String)
  | connectAttempt (ok : Bool)
  | sleepMs (ms : Nat)
  | writeBytes (bytes : String)
  | flushStream
  | setCtrlcHandler
  | spawnHeartbeat
  | recvMsg (r : RecvResult)
  | sendMsg (m : MessageType)
  | storeModelLoaded (b : Bool)
  | storeStopFlag (b : Bool)
deriving Repr, DecidableEq

/-- How the process run ends, seen from outside.
`exited c` is `std::process::exit(c)`; `errored` is an `Err` propagated
out of `main` by `?` (non-zero exit via anyhow); `panicked` is a
`panic!` / failed `expect` / failed `unwrap` (abnormal termination);
`notTerminated` means the finite oracle ran out (the real process would
still be blocked or retrying). -/
inductive Termination where
  | exited (code : Nat)
  | errored
  | panicked
  | notTerminated
deriving Repr, DecidableEq

/-- Oracle for the fallible steps of the bootstrap match arm
(lines 63-152 of runner.rs). `feature_nccl` / `feature_graph` select the
`#[cfg]` compilation variants; `comm_ok` is the nccl-path
`Comm::from_rank(...).unwrap()` together with `as_cuda_device().unwrap()`;
`send_init_ok` covers `stream.try_clone()?` plus `send_local(...)?`. -/
structure BootEnv where
  new_device_ok : Bool
  feature_nccl : Bool
  comm_ok : Bool
  remote_reporter_ok : Bool
  var_builder_ok : Bool
  model_runner_ok : Bool
  feature_graph : Bool
  warmup_ok : Bool
  send_init_ok : Bool
deriving Repr, DecidableEq

/-- Oracle for one iteration of the dispatch loop: the `receive_local`
result and, when the message is a run request, the outcome of
`runner.run(...)` and of `try_clone` + `send_local`. -/
structure StepEnv where
  recv : RecvResult
  run_ok : Bool
  run_outputs : Outputs
  send_ok : Bool
deriving Repr, DecidableEq

/-- Whole-process oracle. `connOk n` tells whether the n-th
`LocalStream::connect` attempt succeeds; `connFuel` bounds how many
retry iterations the model unrolls (the real loop is unbounded). -/
structure Env where
  connOk : Nat → Bool
  connFuel : Nat
  handshake_write_ok : Bool
  handshake_flush_ok : Bool
  ctrlc_ok : Bool
  firstRecv : RecvResult
  boot : BootEnv
  steps : List StepEnv

/-- State of the `ModelRunner` visible to this control flow: the ids
passed to `runner.finished`. -/
structure ModelRunner where
  finished_ids : List Nat
deriving Repr, DecidableEq

/-- The Ctrl-C handler closure (runner.rs lines 48-55): a pure function
of the captured `model_loaded` flag value at the moment of the signal.
Returns its log events and `some code` when it calls
`std::process::exit(code)`, `none` when it returns to keep serving. -/
def ctrlcHandler (model_loaded : Bool) : List Event × Option Nat :=
  if model_loaded then
    ([Event.logInfo "Runner start new session!"], none)
  else
    ([Event.logWarn "Runner break model loading (Ctrl+C detected)!"], some 0)

/-- The connection retry loop (runner.rs lines 36-43), entered with the
result of attempt `n` already in hand; each failing check logs info,
makes attempt `n+1` and sleeps 100ms. Returns the trace and the index of
the successful attempt (`none` when `fuel` iterations were not enough;
the real loop just keeps retrying). -/
def connectRetry (connOk : Nat → Bool) : Nat → Nat → List Event × Option Nat
  | fuel, n =>
    if connOk n then ([], some n)
    else
      match fuel with
      | 0 => ([], none)
      | fuel' + 1 =>
        let rest := connectRetry connOk fuel' (n + 1)
        (Event.logInfo "Runner retry connecting to socket" ::
           Event.connectAttempt (connOk (n + 1)) :: Event.sleepMs 100 :: rest.1,
         rest.2)

/-- Outcome of the bootstrap match (runner.rs lines 63-152). -/
inductive BootOutcome where
  | ok (runner : ModelRunner)
  | err
  | panicked
deriving Repr, DecidableEq

/-- The bootstrap match arm on the first received message. On `Init`:
device, (nccl) communicator, progress reporter with local fallback,
weight load, runner construction, optional warmup, then
`InitAck(true)`. On any other variant: log an error and `panic!`. -/
def bootPhase (b : BootEnv) (msg : MessageType) : List Event × BootOutcome :=
  match msg with
  | .Init _init_req =>
    let e0 := [Event.logInfo "Received init request"]
    if !b.new_device_ok then (e0, .err)
    else if b.feature_nccl && !b.comm_ok then (e0, .panicked)
    else
      let e1 := e0 ++ [Event.logInfo "Loading model at rank"]
      let e2 := e1 ++
        (if b.remote_reporter_ok then []
         else [Event.logError "Unable to create remote progress reporter!"])
      if !b.var_builder_ok then (e2, .err)
      else if !b.model_runner_ok then (e2, .err)
      else
        let e3 := e2 ++ [Event.logInfo "Runner at rank created!"]
        let e4 := e3 ++
          (if b.feature_graph then
             [if b.warmup_ok then Event.printLine "Cuda graph captured"
              else Event.printLine "Graph capture failed"]
           else [])
        if !b.send_init_ok then (e4, .err)
        else (e4 ++ [Event.sendMsg (.InitAck true)], .ok ⟨[]⟩)
  | _ => ([Event.logError "Unexpected message type"], .panicked)

/-- Result of one dispatch-loop iteration: continue with the (possibly
updated) runner, `break`, or propagate an error out of `main`. -/
inductive StepResult where
  | cont (r : ModelRunner)
  | broke
  | errProp
deriving Repr, DecidableEq

/-- One iteration of the dispatch loop (runner.rs lines 157-196):
receive, route by variant, at most one response. -/
def dispatchStep (r : ModelRunner) (s : StepEnv) : List Event × StepResult :=
  let recvEv := Event.recvMsg s.recv
  match s.recv with
  | .ok .Shutdown => ([recvEv, Event.logInfo "Runner exit"], .broke)
  | .ok (.RunPrefill _ _) =>
      if s.run_ok then
        if s.send_ok then
          ([recvEv, Event.sendMsg (.RunResponse s.run_outputs)], .cont r)
        else ([recvEv], .errProp)
      else ([recvEv], .errProp)
  | .ok (.RunDecode _ _) =>
      if s.run_ok then
        if s.send_ok then
          ([recvEv, Event.sendMsg (.RunResponse s.run_outputs)], .cont r)
        else ([recvEv], .errProp)
      else ([recvEv], .errProp)
  | .ok (.LoadingProgress _) =>
      ([recvEv, Event.logInfo "Received loading progress message"], .cont r)
  | .ok (.FinishDecode id) =>
      ([recvEv], .cont { r with finished_ids := r.finished_ids ++ [id] })
  | .error e =>
      if e != IoErrorKind.unexpectedEof then
        ([recvEv, Event.logError "Runner exit with error"], .broke)
      else ([recvEv], .broke)
  | .ok _ => ([recvEv, Event.logError "Unexpected message type"], .cont r)

/-- How the dispatch loop as a whole ends. -/
inductive LoopOutcome where
  | broke
  | errProp
  | blocked
deriving Repr, DecidableEq

/-- The dispatch loop (runner.rs lines 156-197), driven by the finite
oracle list; an exhausted list means the real process would block
forever on `receive_local`. -/
def dispatchLoop (r : ModelRunner) : List StepEnv → List Event × LoopOutcome
  | [] => ([], .blocked)
  | s :: rest =>
    let step := dispatchStep r s
    match step.2 with
    | .cont r' =>
      let next := dispatchLoop r' rest
      (step.1 ++ next.1, next.2)
    | .broke => (step.1, .broke)
    | .errProp => (step.1, .errProp)

/-- The whole `main` of runner.rs as a function of the oracle: the full
event trace and the way the process ends. -/
def main (env : Env) : List Event × Termination :=
  let c := connectRetry env.connOk env.connFuel 0
  let e1 := Event.logInfo "runner started" ::
    Event.connectAttempt (env.connOk 0) :: c.1
  match c.2 with
  | none => (e1, .notTerminated)
  | some _ =>
    let e2 := e1 ++ [Event.writeBytes "ready\n"]
    if !env.handshake_write_ok then (e2, .errored)
    else
      let e3 := e2 ++ [Event.flushStream]
      if !env.handshake_flush_ok then (e3, .errored)
      else
        let e4 := e3 ++ [Event.setCtrlcHandler]
        if !env.ctrlc_ok then (e4, .panicked)
        else
          let e5 := e4 ++ [Event.logInfo "Runner connected to socket",
            Event.spawnHeartbeat, Event.recvMsg env.firstRecv]
          match env.firstRecv with
          | .error _ => (e5, .errored)
          | .ok msg =>
            let b := bootPhase env.boot msg
            let e6 := e5 ++ b.1
            match b.2 with
            | .err => (e6, .errored)
            | .panicked => (e6, .panicked)
            | .ok runner =>
              let e7 := e6 ++ [Event.storeModelLoaded true]
              let d := dispatchLoop runner env.steps
              let e8 := e7 ++ d.1
              match d.2 with
              | .blocked => (e8, .notTerminated)
              | .errProp => (e8, .errored)
              | .broke =>
                (e8 ++ [Event.storeStopFlag true,
                   Event.logInfo "Runner finished"], .exited 0)

/-! Event classifiers used to state the claims. -/

/-- Any `InitAck` send event. -/
def isSendInitAck : Event → Bool
  | .sendMsg (.InitAck _) => true
  | _ => false

/-- A `RunResponse` send event. -/
def isSendRunResponse : Event → Bool
  | .sendMsg (.RunResponse _) => true
  | _ => false

/-- Any send event. -/
def isSendEvent : Event → Bool
  | .sendMsg _ => true
  | _ => false

/-- Any store to the model-loaded flag. -/
def isStoreModelLoaded : Event → Bool
  | .storeModelLoaded _ => true
  | _ => false

/-- Any store to the stop flag. -/
def isStoreStopFlag : Event → Bool
  | .storeStopFlag _ => true
  | _ => false

/-- Any receive event. -/
def isRecvEvent : Event → Bool
  | .recvMsg _ => true
  | _ => false

/-- Raw stream write or flush (the handshake is the only such traffic). -/
def isWriteOrFlush : Event → Bool
  | .writeBytes _ => true
  | .flushStream => true
  | _ => false

/-- Events the connection retry phase may produce: info logs, connect
attempts and the fixed 100ms sleep. -/
def isConnPhaseEvent : Event → Bool
  | .logInfo _ => true
  | .connectAttempt _ => true
  | .sleepMs 100 => true
  | _ => false

/-- Value of the model-loaded atomic after a trace: the last store wins,
starting from `false`. -/
def flagStep (v : Bool) (e : Event) : Bool :=
  match e with
  | .storeModelLoaded b => b
  | _ => v

/-- Value of the model-loaded flag after the given event list. -/
def modelLoadedAfter (evs : List Event) : Bool :=
  evs.foldl flagStep false

/-- The Init-first success condition of the bootstrap oracle: every
fallible bootstrap step that uses `?` or `unwrap` succeeds. -/
def bootOk (b : BootEnv) : Bool :=
  b.new_device_ok && (!b.feature_nccl || b.comm_ok) &&
    b.var_builder_ok && b.model_runner_ok && b.send_init_ok

/-- The bootstrap trace before the `InitAck(true)` send, on the success
path. -/
def bootPreTrace (b : BootEnv) : List Event :=
  [Event.logInfo "Received init request", Event.logInfo "Loading model at rank"] ++
    (if b.remote_reporter_ok then []
     else [Event.logError "Unable to create remote progress reporter!"]) ++
    [Event.logInfo "Runner at rank created!"] ++
    (if b.feature_graph then
       [if b.warmup_ok then Event.printLine "Cuda graph captured"
        else Event.printLine "Graph capture failed"]
     else [])

/-- A dispatch-loop iteration that neither breaks nor propagates an
error, as a function of its oracle alone. -/
def stepContinues (s : StepEnv) : Bool :=
  match s.recv with
  | .ok (.RunPrefill _ _) => s.run_ok && s.send_ok
  | .ok (.RunDecode _ _) => s.run_ok && s.send_ok
  | .ok (.LoadingProgress _) => true
  | .ok (.FinishDecode _) => true
  | .ok .Shutdown => false
  | .error _ => false
  | .ok _ => true

/-- A received message that carries a run request. -/
def isRunRequest : MessageType → Bool
  | .RunPrefill _ _ => true
  | .RunDecode _ _ => true
  | _ => false

/-- Message variants the dispatch loop treats as unexpected (the `_`
catch-all arm). -/
def isUnexpectedSteady : MessageType → Bool
  | .Init _ => true
  | .InitAck _ => true
  | .RunResponse _ => true
  | _ => false

/-- The `Init` variant. -/
def isInitMsg : MessageType → Bool
  | .Init _ => true
  | _ => false

/-! Phase purity lemmas: which event shapes each phase can emit. -/

theorem connectRetry_mem (connOk : Nat → Bool) :
    ∀ (fuel n : Nat), ∀ e ∈ (connectRetry connOk fuel n).1, isConnPhaseEvent e = true := by
  intro fuel
  induction fuel with
  | zero =>
    intro n e he
    by_cases h : connOk n = true <;> simp [connectRetry, h] at he
  | succ f ih =>
    intro n e he
    by_cases h : connOk n = true
    · simp [connectRetry, h] at he
    · simp only [connectRetry, h, Bool.false_eq_true, if_false, List.mem_cons] at he
      rcases he with rfl | rfl | rfl | he
      · rfl
      · rfl
      · rfl
      · exact ih (n + 1) e he

theorem connectRetry_countP (connOk : Nat → Bool) (p : Event → Bool)
    (h : ∀ e, isConnPhaseEvent e = true → p e = false) (fuel n : Nat) :
    ((connectRetry connOk fuel n).1).countP p = 0 := by
  rw [List.countP_eq_zero]
  intro e he
  simp [h e (connectRetry_mem connOk fuel n e he)]

theorem bootPreTrace_mem (b : BootEnv) :
    ∀ e ∈ bootPreTrace b,
      (∃ s, e = Event.logInfo s) ∨ (∃ s, e = Event.logError s) ∨
        (∃ s, e = Event.printLine s) := by
  intro e he
  cases hr : b.remote_reporter_ok <;> cases hg : b.feature_graph <;>
    cases hw : b.warmup_ok <;> simp [bootPreTrace, hr, hg, hw] at he <;>
    rcases he with rfl | rfl | rfl | rfl | rfl <;> simp

theorem bootPhase_mem (b : BootEnv) (msg : MessageType) :
    ∀ e ∈ (bootPhase b msg).1,
      (∃ s, e = Event.logInfo s) ∨ (∃ s, e = Event.logError s) ∨
        (∃ s, e = Event.printLine s) ∨ e = Event.sendMsg (.InitAck true) := by
  intro e he
  cases msg <;>
    simp only [bootPhase] at he
  case Init req =>
    by_cases h1 : b.new_device_ok = true
    case neg =>
      simp [h1] at he; simp [he]
    case pos =>
      by_cases h2 : (b.feature_nccl && !b.comm_ok) = true
      · simp [h1, h2] at he; simp [he]
      · by_cases h3 : b.var_builder_ok = true
        case neg =>
          cases hr : b.remote_reporter_ok <;> simp [h1, h2, h3, hr] at he <;>
            rcases he with rfl | rfl | rfl <;> simp
        case pos =>
          by_cases h4 : b.model_runner_ok = true
          case neg =>
            cases hr : b.remote_reporter_ok <;> simp [h1, h2, h3, h4, hr] at he <;>
              rcases he with rfl | rfl | rfl <;> simp
          case pos =>
            by_cases h5 : b.send_init_ok = true <;>
              cases hr : b.remote_reporter_ok <;> cases hg : b.feature_graph <;>
                cases hw : b.warmup_ok <;>
                simp [h1, h2, h3, h4, h5, hr, hg, hw] at he <;>
                rcases he with rfl | rfl | rfl | rfl | rfl | rfl <;> simp
  all_goals (simp at he; simp [he])

theorem bootPhase_countP (b : BootEnv) (msg : MessageType) (p : Event → Bool)
    (hInfo : ∀ s, p (Event.logInfo s) = false)
    (hErr : ∀ s, p (Event.logError s) = false)
    (hPr : ∀ s, p (Event.printLine s) = false)
    (hAck : p (Event.sendMsg (.InitAck true)) = false) :
    ((bootPhase b msg).1).countP p = 0 := by
  rw [List.countP_eq_zero]
  intro e he
  rcases bootPhase_mem b msg e he with ⟨s, rfl⟩ | ⟨s, rfl⟩ | ⟨s, rfl⟩ | rfl <;>
    simp [hInfo, hErr, hPr, hAck]

theorem dispatchStep_mem (r : ModelRunner) (s : StepEnv) :
    ∀ e ∈ (dispatchStep r s).1,
      e = Event.recvMsg s.recv ∨ (∃ t, e = Event.logInfo t) ∨
        (∃ t, e = Event.logError t) ∨ (∃ o, e = Event.sendMsg (.RunResponse o)) := by
  intro e he
  rcases hm : s.recv with err | msg <;> rw [dispatchStep] at he
  · simp only [hm] at he
    by_cases h : (err != IoErrorKind.unexpectedEof) = true <;> simp [h, hm] at he <;>
      rcases he with rfl | rfl <;> simp [hm]
  · cases msg <;> simp only [hm] at he
    case RunPrefill sqs pf =>
      by_cases h1 : s.run_ok = true <;> by_cases h2 : s.send_ok = true <;>
        simp [h1, h2] at he <;> rcases he with rfl | rfl <;> simp [hm]
    case RunDecode sqs pf =>
      by_cases h1 : s.run_ok = true <;> by_cases h2 : s.send_ok = true <;>
        simp [h1, h2] at he <;> rcases he with rfl | rfl <;> simp [hm]
    all_goals (simp at he; rcases he with rfl | rfl <;> simp [hm])

theorem dispatchStep_countP (r : ModelRunner) (s : StepEnv) (p : Event → Bool)
    (hRecv : ∀ x, p (Event.recvMsg x) = false)
    (hInfo : ∀ t, p (Event.logInfo t) = false)
    (hErr : ∀ t, p (Event.logError t) = false)
    (hResp : ∀ o, p (Event.sendMsg (.RunResponse o)) = false) :
    ((dispatchStep r s).1).countP p = 0 := by
  rw [List.countP_eq_zero]
  intro e he
  rcases dispatchStep_mem r s e he with rfl | ⟨t, rfl⟩ | ⟨t, rfl⟩ | ⟨o, rfl⟩ <;>
    simp [hRecv, hInfo, hErr, hResp]

theorem dispatchLoop_countP (p : Event → Bool)
    (hRecv : ∀ x, p (Event.recvMsg x) = false)
    (hInfo : ∀ t, p (Event.logInfo t) = false)
    (hErr : ∀ t, p (Event.logError t) = false)
    (hResp : ∀ o, p (Event.sendMsg (.RunResponse o)) = false) :
    ∀ (steps : List StepEnv) (r : ModelRunner),
      ((dispatchLoop r steps).1).countP p = 0 := by
  intro steps
  induction steps with
  | nil => intro r; simp [dispatchLoop]
  | cons s rest ih =>
    intro r
    rw [dispatchLoop]
    rcases h : (dispatchStep r s).2 with r' | _ | _ <;>
      simp [h, List.countP_append, dispatchStep_countP r s p hRecv hInfo hErr hResp, ih]

/-! Shape of the `main` trace on the principal paths. -/

/-- Everything `main` emits before the bootstrap match arm runs, on the
path where the connection, the handshake and the handler registration
all succeed. -/
def handshakeTrace (env : Env) : List Event :=
  Event.logInfo "runner started" :: Event.connectAttempt (env.connOk 0) ::
    (connectRetry env.connOk env.connFuel 0).1 ++
    [Event.writeBytes "ready\n", Event.flushStream, Event.setCtrlcHandler,
     Event.logInfo "Runner connected to socket", Event.spawnHeartbeat,
     Event.recvMsg env.firstRecv]

/-- Trailing events after the dispatch loop, by loop outcome. -/
def loopTail : LoopOutcome → List Event
  | .broke => [Event.storeStopFlag true, Event.logInfo "Runner finished"]
  | .errProp => []
  | .blocked => []

/-- Process termination determined by the dispatch-loop outcome. -/
def loopTerm : LoopOutcome → Termination
  | .broke => .exited 0
  | .errProp => .errored
  | .blocked => .notTerminated

theorem bootPhase_init_ok (b : BootEnv) (req : InitRequest) (h : bootOk b = true) :
    bootPhase b (.Init req) =
      (bootPreTrace b ++ [Event.sendMsg (.InitAck true)], .ok ⟨[]⟩) := by
  simp only [bootOk, Bool.and_eq_true, Bool.or_eq_true, Bool.not_eq_true'] at h
  obtain ⟨⟨⟨⟨h1, h2⟩, h3⟩, h4⟩, h5⟩ := h
  have h2' : (b.feature_nccl && !b.comm_ok) = false := by
    rcases h2 with h2 | h2 <;> simp [h2]
  simp [bootPhase, bootPreTrace, h1, h2', h3, h4, h5]

theorem bootPhase_nonInit (b : BootEnv) (msg : MessageType)
    (h : isInitMsg msg = false) :
    bootPhase b msg = ([Event.logError "Unexpected message type"], .panicked) := by
  cases msg <;> simp [isInitMsg] at h ⊢ <;> rfl

theorem main_eq_of_init (env : Env) (req : InitRequest) (k : Nat)
    (hc : (connectRetry env.connOk env.connFuel 0).2 = some k)
    (hw : env.handshake_write_ok = true)
    (hf : env.handshake_flush_ok = true)
    (hctrl : env.ctrlc_ok = true)
    (hfirst : env.firstRecv = .ok (.Init req))
    (hboot : bootOk env.boot = true) :
    main env =
      (handshakeTrace env ++ bootPreTrace env.boot ++
         Event.sendMsg (.InitAck true) :: Event.storeModelLoaded true ::
           (dispatchLoop ⟨[]⟩ env.steps).1 ++
           loopTail (dispatchLoop ⟨[]⟩ env.steps).2,
       loopTerm (dispatchLoop ⟨[]⟩ env.steps).2) := by
  rw [main]
  simp only [hc, hw, hf, hctrl, hfirst, Bool.not_true, Bool.false_eq_true, if_false,
    bootPhase_init_ok env.boot req hboot]
  rcases hd : (dispatchLoop ⟨[]⟩ env.steps).2 <;>
    simp [handshakeTrace, loopTail, loopTerm, hd, hfirst]

theorem main_eq_of_nonInit (env : Env) (msg : MessageType) (k : Nat)
    (hc : (connectRetry env.connOk env.connFuel 0).2 = some k)
    (hw : env.handshake_write_ok = true)
    (hf : env.handshake_flush_ok = true)
    (hctrl : env.ctrlc_ok = true)
    (hfirst : env.firstRecv = .ok msg)
    (hmsg : isInitMsg msg = false) :
    main env =
      (handshakeTrace env ++ [Event.logError "Unexpected message type"],
       .panicked) := by
  rw [main]
  simp only [hc, hw, hf, hctrl, hfirst, Bool.not_true, Bool.false_eq_true, if_false,
    bootPhase_nonInit env.boot msg hmsg]
  simp [handshakeTrace, hfirst]

theorem handshakeTrace_countP (env : Env) (p : Event → Bool)
    (hConn : ∀ e, isConnPhaseEvent e = true → p e = false)
    (hWr : p (Event.writeBytes "ready\n") = false)
    (hFl : p Event.flushStream = false)
    (hCt : p Event.setCtrlcHandler = false)
    (hHb : p Event.spawnHeartbeat = false)
    (hRe : p (Event.recvMsg env.firstRecv) = false) :
    (handshakeTrace env).countP p = 0 := by
  have h1 : p (Event.logInfo "runner started") = false := hConn _ rfl
  have h2 : p (Event.connectAttempt (env.connOk 0)) = false := hConn _ rfl
  have h3 : p (Event.logInfo "Runner connected to socket") = false := hConn _ rfl
  simp [handshakeTrace, List.countP_cons, List.countP_append, h1, h2, h3,
    hWr, hFl, hCt, hHb, hRe,
    connectRetry_countP env.connOk p hConn env.connFuel 0]

theorem bootPreTrace_countP (b : BootEnv) (p : Event → Bool)
    (hInfo : ∀ s, p (Event.logInfo s) = false)
    (hErr : ∀ s, p (Event.logError s) = false)
    (hPr : ∀ s, p (Event.printLine s) = false) :
    (bootPreTrace b).countP p = 0 := by
  rw [List.countP_eq_zero]
  intro e he
  rcases bootPreTrace_mem b e he with ⟨s, rfl⟩ | ⟨s, rfl⟩ | ⟨s, rfl⟩ <;>
    simp [hInfo, hErr, hPr]

/-- A store of `false` into the model-loaded flag (never emitted). -/
def isStoreModelLoadedFalse : Event → Bool
  | .storeModelLoaded false => true
  | _ => false

/-- A store of `false` into the stop flag (never emitted). -/
def isStoreStopFlagFalse : Event → Bool
  | .storeStopFlag false => true
  | _ => false

/-- Generic bound on how often a predicate can hold over the whole
`main` trace, for predicates that ignore every non-store event: the only
store events `main` can emit are one `storeModelLoaded true` and one
`storeStopFlag true`. -/
theorem main_countP_store_bound (p : Event → Bool)
    (hConn : ∀ e, isConnPhaseEvent e = true → p e = false)
    (hInfo : ∀ s, p (Event.logInfo s) = false)
    (hErr : ∀ s, p (Event.logError s) = false)
    (hPr : ∀ s, p (Event.printLine s) = false)
    (hWr : ∀ s, p (Event.writeBytes s) = false)
    (hFl : p Event.flushStream = false)
    (hCt : p Event.setCtrlcHandler = false)
    (hHb : p Event.spawnHeartbeat = false)
    (hRe : ∀ x, p (Event.recvMsg x) = false)
    (hAck : p (Event.sendMsg (.InitAck true)) = false)
    (hResp : ∀ o, p (Event.sendMsg (.RunResponse o)) = false)
    (env : Env) :
    (main env).1.countP p ≤
      (if p (Event.storeModelLoaded true) then 1 else 0) +
        (if p (Event.storeStopFlag true) then 1 else 0) := by
  have hAtt : ∀ b, p (Event.connectAttempt b) = false := fun b => hConn _ rfl
  have hRetry : ((connectRetry env.connOk env.connFuel 0).1).countP p = 0 :=
    connectRetry_countP env.connOk p hConn env.connFuel 0
  have hBoot : ∀ msg, ((bootPhase env.boot msg).1).countP p = 0 := fun msg =>
    bootPhase_countP env.boot msg p hInfo hErr hPr hAck
  have hDisp : ∀ r, ((dispatchLoop r env.steps).1).countP p = 0 := fun r =>
    dispatchLoop_countP p hRe hInfo hErr hResp env.steps r
  rw [main]
  rcases hc : (connectRetry env.connOk env.connFuel 0).2 with _ | k
  · simp [hc, List.countP_cons, hInfo, hAtt, hRetry]
  · simp only [hc]
    rcases hw : env.handshake_write_ok with _ | _
    · simp [hw, List.countP_append, List.countP_cons, hInfo, hAtt, hRetry, hWr]
    · rcases hf : env.handshake_flush_ok with _ | _
      · simp [hw, hf, List.countP_append, List.countP_cons, hInfo, hAtt, hRetry,
          hWr, hFl]
      · rcases hctrl : env.ctrlc_ok with _ | _
        · simp [hw, hf, hctrl, List.countP_append, List.countP_cons, hInfo, hAtt,
            hRetry, hWr, hFl, hCt]
        · rcases hfirst : env.firstRecv with e | msg
          · simp [hw, hf, hctrl, hfirst, List.countP_append, List.countP_cons,
              hInfo, hAtt, hRetry, hWr, hFl, hCt, hHb, hRe]
          · rcases hb : (bootPhase env.boot msg).2 with r | _ | _ <;>
              [skip;
               simp [hw, hf, hctrl, hfirst, hb, List.countP_append, List.countP_cons,
                 hInfo, hAtt, hRetry, hWr, hFl, hCt, hHb, hRe, hBoot];
               simp [hw, hf, hctrl, hfirst, hb, List.countP_append, List.countP_cons,
                 hInfo, hAtt, hRetry, hWr, hFl, hCt, hHb, hRe, hBoot]]
            rcases hd : (dispatchLoop r env.steps).2 <;>
              simp [hw, hf, hctrl, hfirst, hb, hd, List.countP_append,
                List.countP_cons, hInfo, hAtt, hRetry, hWr, hFl, hCt, hHb, hRe,
                hBoot, hDisp] <;>
              split_ifs <;> omega

theorem main_storeMLFalse_count (env : Env) :
    (main env).1.countP isStoreModelLoadedFalse = 0 := by
  have h := main_countP_store_bound isStoreModelLoadedFalse
    (fun e he => by cases e <;> simp_all [isConnPhaseEvent, isStoreModelLoadedFalse])
    (fun _ => rfl) (fun _ => rfl) (fun _ => rfl) (fun _ => rfl) rfl rfl rfl
    (fun _ => rfl) rfl (fun _ => rfl) env
  simpa [isStoreModelLoadedFalse] using h

theorem main_storeSFFalse_count (env : Env) :
    (main env).1.countP isStoreStopFlagFalse = 0 := by
  have h := main_countP_store_bound isStoreStopFlagFalse
    (fun e he => by cases e <;> simp_all [isConnPhaseEvent, isStoreStopFlagFalse])
    (fun _ => rfl) (fun _ => rfl) (fun _ => rfl) (fun _ => rfl) rfl rfl rfl
    (fun _ => rfl) rfl (fun _ => rfl) env
  simpa [isStoreStopFlagFalse] using h

theorem main_storeML_le_one (env : Env) :
    (main env).1.countP isStoreModelLoaded ≤ 1 := by
  have h := main_countP_store_bound isStoreModelLoaded
    (fun e he => by cases e <;> simp_all [isConnPhaseEvent, isStoreModelLoaded])
    (fun _ => rfl) (fun _ => rfl) (fun _ => rfl) (fun _ => rfl) rfl rfl rfl
    (fun _ => rfl) rfl (fun _ => rfl) env
  simpa [isStoreModelLoaded] using h

theorem main_storeSF_le_one (env : Env) :
    (main env).1.countP isStoreStopFlag ≤ 1 := by
  have h := main_countP_store_bound isStoreStopFlag
    (fun e he => by cases e <;> simp_all [isConnPhaseEvent, isStoreStopFlag])
    (fun _ => rfl) (fun _ => rfl) (fun _ => rfl) (fun _ => rfl) rfl rfl rfl
    (fun _ => rfl) rfl (fun _ => rfl) env
  simpa [isStoreStopFlag] using h

theorem main_no_storeML_false_mem (env : Env) :
    ∀ e ∈ (main env).1, e ≠ Event.storeModelLoaded false := by
  intro e he h
  have := List.countP_eq_zero.mp (main_storeMLFalse_count env) e he
  subst h
  simp [isStoreModelLoadedFalse] at this

theorem foldl_flagStep_stays_true (evs : List Event)
    (h : ∀ e ∈ evs, e ≠ Event.storeModelLoaded false) :
    evs.foldl flagStep true = true := by
  induction evs with
  | nil => rfl
  | cons a l ih =>
    have ha : a ≠ Event.storeModelLoaded false := h a (by simp)
    have hstep : flagStep true a = true := by
      cases a <;> simp [flagStep]
      case storeModelLoaded b =>
        cases b
        · exact absurd rfl ha
        · rfl
    rw [List.foldl_cons, hstep]
    exact ih fun e he => h e (List.mem_cons_of_mem a he)

/-- Once a trace prefix of `main` shows the model-loaded flag true, every
longer prefix does too: nothing in the program stores `false`. -/
theorem modelLoadedAfter_monotone (env : Env) (m n : Nat) (hmn : m ≤ n)
    (h : modelLoadedAfter ((main env).1.take m) = true) :
    modelLoadedAfter ((main env).1.take n) = true := by
  have hsplit : (main env).1.take n =
      (main env).1.take m ++ ((main env).1.drop m).take (n - m) := by
    have := List.take_add (main env).1 m (n - m)
    rwa [Nat.add_sub_cancel' hmn] at this
  rw [modelLoadedAfter, hsplit, List.foldl_append]
  rw [modelLoadedAfter] at h
  rw [h]
  exact foldl_flagStep_stays_true _ fun e he =>
    main_no_storeML_false_mem env e
      (List.drop_subset m (main env).1 (List.take_subset _ _ he))

/-- C10: ModelLoadedFlag and StopFlag are monotonic: over any run of the
program, neither flag is ever stored with the value `false`, and each is
stored at most once (so each goes false → true at most once and is never
reset). -/
theorem flags_monotonic (env : Env) :
    (main env).1.countP isStoreModelLoadedFalse = 0 ∧
      (main env).1.countP isStoreStopFlagFalse = 0 ∧
      (main env).1.countP isStoreModelLoaded ≤ 1 ∧
      (main env).1.countP isStoreStopFlag ≤ 1 :=
  ⟨main_storeMLFalse_count env, main_storeSFFalse_count env,
    main_storeML_le_one env, main_storeSF_le_one env⟩

/-- C3: the interrupt handler is a pure function of the model-loaded
flag: when the flag is false it logs a warning and exits with status 0,
when it is true it only logs and the process keeps serving; and the flag
value seen over `main` is monotone in time, so this decision depends
only on whether the interrupt lands before or after bootstrap
completion. -/
theorem ctrlc_decision (flag : Bool) :
    (ctrlcHandler flag =
        if flag then ([Event.logInfo "Runner start new session!"], none)
        else ([Event.logWarn "Runner break model loading (Ctrl+C detected)!"],
          some 0)) ∧
      ∀ (env : Env) (m n : Nat), m ≤ n →
        modelLoadedAfter ((main env).1.take m) = true →
        modelLoadedAfter ((main env).1.take n) = true :=
  ⟨rfl, modelLoadedAfter_monotone⟩

/-! Characterization of the connection retry loop. -/

theorem connectRetry_some_iff (connOk : Nat → Bool) :
    ∀ (fuel n m : Nat),
      (connectRetry connOk fuel n).2 = some m ↔
        (n ≤ m ∧ m ≤ n + fuel ∧ connOk m = true ∧
          ∀ k, n ≤ k → k < m → connOk k = false) := by
  intro fuel
  induction fuel with
  | zero =>
    intro n m
    by_cases h : connOk n = true
    · simp only [connectRetry, h, if_true]
      constructor
      · rintro h'
        simp at h'
        subst h'
        exact ⟨Nat.le_refl n, by omega, h, fun k hk1 hk2 => by omega⟩
      · rintro ⟨h1, h2, h3, _⟩
        have : m = n := by omega
        simp [this]
    · simp only [connectRetry, h, Bool.false_eq_true, if_false]
      constructor
      · intro h'; simp at h'
      · rintro ⟨h1, h2, h3, _⟩
        have : m = n := by omega
        subst this
        exact absurd h3 h
  | succ f ih =>
    intro n m
    by_cases h : connOk n = true
    · simp only [connectRetry, h, if_true]
      constructor
      · rintro h'
        simp at h'
        subst h'
        exact ⟨Nat.le_refl n, by omega, h, fun k hk1 hk2 => by omega⟩
      · rintro ⟨h1, h2, h3, h4⟩
        rcases Nat.eq_or_lt_of_le h1 with rfl | hlt
        · rfl
        · exact absurd h (by simp [h4 n (Nat.le_refl n) hlt])
    · rw [connectRetry]
      simp only [h, Bool.false_eq_true, if_false]
      rw [ih (n + 1) m]
      constructor
      · rintro ⟨h1, h2, h3, h4⟩
        refine ⟨by omega, by omega, h3, fun k hk1 hk2 => ?_⟩
        rcases Nat.eq_or_lt_of_le hk1 with rfl | hlt
        · simpa using h
        · exact h4 k (by omega) hk2
      · rintro ⟨h1, h2, h3, h4⟩
        have hmn : n < m := by
          rcases Nat.eq_or_lt_of_le h1 with rfl | hlt
          · exact absurd h3 h
          · exact hlt
        exact ⟨by omega, by omega, h3, fun k hk1 hk2 => h4 k (by omega) hk2⟩

/-- C8: the connection retry loop emits only info logs, connect attempts
and fixed 100ms sleeps (no error is surfaced for a failed attempt), and
it returns a connection exactly when some attempt succeeds — the first
one that does; when every attempt in the unrolled window fails it is
still retrying. -/
theorem connect_retry_spec (connOk : Nat → Bool) (fuel n : Nat) :
    (∀ e ∈ (connectRetry connOk fuel n).1, isConnPhaseEvent e = true) ∧
      ∀ m, ((connectRetry connOk fuel n).2 = some m ↔
        (n ≤ m ∧ m ≤ n + fuel ∧ connOk m = true ∧
          ∀ k, n ≤ k → k < m → connOk k = false)) :=
  ⟨connectRetry_mem connOk fuel n, fun m => connectRetry_some_iff connOk fuel n m⟩

/-- How many `RunResponse` messages one dispatch iteration must send,
per received message: one for a run request, zero otherwise. -/
def expectedResponses : RecvResult → Nat
  | .ok m => if isRunRequest m then 1 else 0
  | .error _ => 0

theorem loopTail_countP (o : LoopOutcome) (p : Event → Bool)
    (hSF : p (Event.storeStopFlag true) = false)
    (hInfo : ∀ s, p (Event.logInfo s) = false) :
    (loopTail o).countP p = 0 := by
  cases o <;> simp [loopTail, hSF, hInfo]

/-- C2: in steady state each `RunPrefill`/`RunDecode` iteration sends
exactly one `RunResponse` — carrying that run's outputs — and it does so
within the iteration, before the next receive; `Shutdown`,
`LoadingProgress` and `FinishDecode` iterations send none. -/
theorem dispatch_alternation (r : ModelRunner) (s : StepEnv)
    (hrun : s.run_ok = true) (hsend : s.send_ok = true) :
    ((dispatchStep r s).1.countP isSendRunResponse = expectedResponses s.recv) ∧
      (dispatchStep r s).1.countP isRecvEvent = 1 ∧
      (dispatchStep r s).1.head? = some (Event.recvMsg s.recv) ∧
      ∀ m rest, s.recv = .ok m → isRunRequest m = true →
        dispatchLoop r (s :: rest) =
          (Event.recvMsg s.recv :: Event.sendMsg (.RunResponse s.run_outputs) ::
             (dispatchLoop r rest).1, (dispatchLoop r rest).2) := by
  have hstep : ∀ m, s.recv = .ok m → isRunRequest m = true →
      dispatchStep r s =
        ([Event.recvMsg s.recv, Event.sendMsg (.RunResponse s.run_outputs)],
         .cont r) := by
    intro m hm hr
    cases m <;> simp [isRunRequest] at hr <;>
      simp [dispatchStep, hm, hrun, hsend]
  refine ⟨?_, ?_, ?_, fun m rest hm hr => ?_⟩
  · rcases hm : s.recv with e | m
    · rw [dispatchStep]
      simp only [hm]
      by_cases h : (e != IoErrorKind.unexpectedEof) = true <;>
        simp [h, expectedResponses, isSendRunResponse, isRecvEvent]
    · cases m <;>
        simp [dispatchStep, hm, hrun, hsend, expectedResponses, isRunRequest,
          isSendRunResponse]
  · rcases hm : s.recv with e | m
    · rw [dispatchStep]
      simp only [hm]
      by_cases h : (e != IoErrorKind.unexpectedEof) = true <;>
        simp [h, isRecvEvent]
    · cases m <;>
        simp [dispatchStep, hm, hrun, hsend, isRecvEvent, isSendRunResponse]
  · rcases hm : s.recv with e | m
    · rw [dispatchStep]
      simp only [hm]
      by_cases h : (e != IoErrorKind.unexpectedEof) = true <;> simp [h, hm]
    · cases m <;> simp [dispatchStep, hm, hrun, hsend]
  · rw [dispatchLoop]
    simp [hstep m hm hr]

/-- C9: an unexpected message variant in the steady-state loop is
non-fatal: the iteration logs an error, sends nothing, and the loop goes
on to the next receive with the runner unchanged — whereas the same
(non-`Init`) message as the first message makes bootstrap panic. -/
theorem steady_unexpected_nonfatal (r : ModelRunner) (b : BootEnv) (s : StepEnv)
    (msg : MessageType) (hs : s.recv = .ok msg)
    (hu : isUnexpectedSteady msg = true) :
    dispatchStep r s =
        ([Event.recvMsg (.ok msg), Event.logError "Unexpected message type"],
         .cont r) ∧
      (∀ rest, dispatchLoop r (s :: rest) =
        (Event.recvMsg (.ok msg) :: Event.logError "Unexpected message type" ::
           (dispatchLoop r rest).1, (dispatchLoop r rest).2)) ∧
      ∀ m', isInitMsg m' = false → (bootPhase b m').2 = .panicked := by
  have hstep : dispatchStep r s =
      ([Event.recvMsg (.ok msg), Event.logError "Unexpected message type"],
       .cont r) := by
    cases msg <;> simp [isUnexpectedSteady] at hu <;> simp [dispatchStep, hs]
  refine ⟨hstep, fun rest => ?_, fun m' hm' => ?_⟩
  · rw [dispatchLoop]
    simp [hstep]
  · rw [bootPhase_nonInit b m' hm']

theorem stepContinues_cont (t : StepEnv) (h : stepContinues t = true)
    (r : ModelRunner) : ∃ r', (dispatchStep r t).2 = .cont r' := by
  rcases hm : t.recv with e | m
  · simp [stepContinues, hm] at h
  · cases m <;> simp [stepContinues, hm] at h <;>
      simp [dispatchStep, hm] <;> simp [h]

theorem dispatchLoop_cont_prefix :
    ∀ (pre rest : List StepEnv) (r : ModelRunner),
      (∀ t ∈ pre, stepContinues t = true) →
      ∃ r' evs, dispatchLoop r (pre ++ rest) =
        (evs ++ (dispatchLoop r' rest).1, (dispatchLoop r' rest).2) := by
  intro pre
  induction pre with
  | nil => exact fun rest r _ => ⟨r, [], by simp⟩
  | cons t pre' ih =>
    intro rest r h
    obtain ⟨r1, hr1⟩ := stepContinues_cont t (h t (by simp)) r
    obtain ⟨r', evs, hev⟩ := ih rest r1 fun u hu => h u (by simp [hu])
    refine ⟨r', (dispatchStep r t).1 ++ evs, ?_⟩
    rw [List.cons_append, dispatchLoop]
    simp only [hr1, hev]
    simp [List.append_assoc]

theorem dispatchStep_run_fail (r : ModelRunner) (s : StepEnv) (m : MessageType)
    (hm : s.recv = .ok m) (hreq : isRunRequest m = true)
    (hfail : (s.run_ok && s.send_ok) = false) :
    dispatchStep r s = ([Event.recvMsg s.recv], .errProp) := by
  cases m <;> simp [isRunRequest] at hreq <;>
    rcases hrun : s.run_ok <;> rcases hsend : s.send_ok <;>
      simp [hrun, hsend] at hfail ⊢ <;> simp [dispatchStep, hm, hrun, hsend]

/-- C1: when the first message is a well-formed `Init` and every
bootstrap step succeeds, the trace contains exactly one `InitAck(true)`
send, immediately followed by the single store of `true` into
ModelLoadedFlag; everything the dispatch loop does comes after that
store, so the flag is already true when the loop starts. -/
theorem bootstrap_init_ack (env : Env) (req : InitRequest) (k : Nat)
    (hc : (connectRetry env.connOk env.connFuel 0).2 = some k)
    (hw : env.handshake_write_ok = true)
    (hf : env.handshake_flush_ok = true)
    (hctrl : env.ctrlc_ok = true)
    (hfirst : env.firstRecv = .ok (.Init req))
    (hboot : bootOk env.boot = true) :
    ∃ pre,
      (main env).1 =
        pre ++ Event.sendMsg (.InitAck true) :: Event.storeModelLoaded true ::
          ((dispatchLoop ⟨[]⟩ env.steps).1 ++
            loopTail (dispatchLoop ⟨[]⟩ env.steps).2) ∧
      pre.countP isSendInitAck = 0 ∧ pre.countP isStoreModelLoaded = 0 ∧
      ((dispatchLoop ⟨[]⟩ env.steps).1 ++
          loopTail (dispatchLoop ⟨[]⟩ env.steps).2).countP isSendInitAck = 0 ∧
      ((dispatchLoop ⟨[]⟩ env.steps).1 ++
          loopTail (dispatchLoop ⟨[]⟩ env.steps).2).countP isStoreModelLoaded = 0 := by
  refine ⟨handshakeTrace env ++ bootPreTrace env.boot, ?_, ?_, ?_, ?_, ?_⟩
  · rw [main_eq_of_init env req k hc hw hf hctrl hfirst hboot]
    simp [List.append_assoc]
  · rw [List.countP_append]
    rw [handshakeTrace_countP env isSendInitAck
      (fun e he => by cases e <;> simp_all [isConnPhaseEvent, isSendInitAck])
      rfl rfl rfl rfl rfl]
    rw [bootPreTrace_countP env.boot isSendInitAck
      (fun _ => rfl) (fun _ => rfl) (fun _ => rfl)]
  · rw [List.countP_append]
    rw [handshakeTrace_countP env isStoreModelLoaded
      (fun e he => by cases e <;> simp_all [isConnPhaseEvent, isStoreModelLoaded])
      rfl rfl rfl rfl rfl]
    rw [bootPreTrace_countP env.boot isStoreModelLoaded
      (fun _ => rfl) (fun _ => rfl) (fun _ => rfl)]
  · rw [List.countP_append]
    rw [dispatchLoop_countP isSendInitAck (fun _ => rfl) (fun _ => rfl)
      (fun _ => rfl) (fun _ => rfl) env.steps ⟨[]⟩]
    rw [loopTail_countP _ isSendInitAck rfl (fun _ => rfl)]
  · rw [List.countP_append]
    rw [dispatchLoop_countP isStoreModelLoaded (fun _ => rfl) (fun _ => rfl)
      (fun _ => rfl) (fun _ => rfl) env.steps ⟨[]⟩]
    rw [loopTail_countP _ isStoreModelLoaded rfl (fun _ => rfl)]

/-- C4: when the first message after the handshake is anything other
than `Init`, the process panics (abnormal, non-zero termination), no
`InitAck` is ever sent, and ModelLoadedFlag is never stored at all. -/
theorem nonInit_first_fatal (env : Env) (msg : MessageType) (k : Nat)
    (hc : (connectRetry env.connOk env.connFuel 0).2 = some k)
    (hw : env.handshake_write_ok = true)
    (hf : env.handshake_flush_ok = true)
    (hctrl : env.ctrlc_ok = true)
    (hfirst : env.firstRecv = .ok msg)
    (hmsg : isInitMsg msg = false) :
    (main env).2 = .panicked ∧
      (main env).1.countP isSendInitAck = 0 ∧
      (main env).1.countP isStoreModelLoaded = 0 := by
  rw [main_eq_of_nonInit env msg k hc hw hf hctrl hfirst hmsg]
  refine ⟨rfl, ?_, ?_⟩ <;> rw [List.countP_append]
  · rw [handshakeTrace_countP env isSendInitAck
      (fun e he => by cases e <;> simp_all [isConnPhaseEvent, isSendInitAck])
      rfl rfl rfl rfl rfl]
    decide
  · rw [handshakeTrace_countP env isStoreModelLoaded
      (fun e he => by cases e <;> simp_all [isConnPhaseEvent, isStoreModelLoaded])
      rfl rfl rfl rfl rfl]
    decide

/-- C5: whenever the dispatch loop exits by `break` — `Shutdown`,
end-of-stream, or any other receive error — the process stores `true`
into StopFlag (its only store), logs the final message, and exits with
status 0. -/
theorem loop_exit_clean (env : Env) (req : InitRequest) (k : Nat)
    (hc : (connectRetry env.connOk env.connFuel 0).2 = some k)
    (hw : env.handshake_write_ok = true)
    (hf : env.handshake_flush_ok = true)
    (hctrl : env.ctrlc_ok = true)
    (hfirst : env.firstRecv = .ok (.Init req))
    (hboot : bootOk env.boot = true)
    (hd : (dispatchLoop ⟨[]⟩ env.steps).2 = .broke) :
    (main env).2 = .exited 0 ∧
      ∃ pre, (main env).1 =
          pre ++ [Event.storeStopFlag true, Event.logInfo "Runner finished"] ∧
        pre.countP isStoreStopFlag = 0 := by
  rw [main_eq_of_init env req k hc hw hf hctrl hfirst hboot]
  refine ⟨by rw [hd]; rfl,
    handshakeTrace env ++ bootPreTrace env.boot ++
      Event.sendMsg (.InitAck true) :: Event.storeModelLoaded true ::
        (dispatchLoop ⟨[]⟩ env.steps).1, ?_, ?_⟩
  · rw [hd]
    simp [loopTail, List.append_assoc]
  · simp only [List.countP_append, List.countP_cons]
    rw [handshakeTrace_countP env isStoreStopFlag
      (fun e he => by cases e <;> simp_all [isConnPhaseEvent, isStoreStopFlag])
      rfl rfl rfl rfl rfl]
    rw [bootPreTrace_countP env.boot isStoreStopFlag
      (fun _ => rfl) (fun _ => rfl) (fun _ => rfl)]
    rw [dispatchLoop_countP isStoreStopFlag (fun _ => rfl) (fun _ => rfl)
      (fun _ => rfl) (fun _ => rfl) env.steps ⟨[]⟩]
    simp [isStoreStopFlag]

/-- C6: if, in an otherwise-continuing steady state, `runner.run` or the
sending of the response fails on a `RunPrefill`/`RunDecode` message, the
error propagates out of `main` (abnormal termination): the trace ends at
that request's receive, so no `RunResponse` is sent for it, StopFlag is
never stored, and the success-exit path is not taken. -/
theorem run_failure_propagates (env : Env) (req : InitRequest) (k : Nat)
    (hc : (connectRetry env.connOk env.connFuel 0).2 = some k)
    (hw : env.handshake_write_ok = true)
    (hf : env.handshake_flush_ok = true)
    (hctrl : env.ctrlc_ok = true)
    (hfirst : env.firstRecv = .ok (.Init req))
    (hboot : bootOk env.boot = true)
    (pre1 post : List StepEnv) (s : StepEnv) (m : MessageType)
    (hsteps : env.steps = pre1 ++ s :: post)
    (hpre : ∀ t ∈ pre1, stepContinues t = true)
    (hm : s.recv = .ok m) (hreq : isRunRequest m = true)
    (hfail : (s.run_ok && s.send_ok) = false) :
    (main env).2 = .errored ∧
      (main env).1.countP isStoreStopFlag = 0 ∧
      ∃ p, (main env).1 = p ++ [Event.recvMsg s.recv] := by
  obtain ⟨r', evs, hev⟩ :=
    dispatchLoop_cont_prefix pre1 (s :: post) (⟨[]⟩ : ModelRunner) hpre
  have hstep : dispatchStep r' s = ([Event.recvMsg s.recv], .errProp) :=
    dispatchStep_run_fail r' s m hm hreq hfail
  have hloop : dispatchLoop ⟨[]⟩ env.steps = (evs ++ [Event.recvMsg s.recv], .errProp) := by
    rw [hsteps, hev, dispatchLoop]
    simp [hstep]
  rw [main_eq_of_init env req k hc hw hf hctrl hfirst hboot]
  refine ⟨by rw [hloop]; rfl, ?_,
    handshakeTrace env ++ bootPreTrace env.boot ++
      Event.sendMsg (.InitAck true) :: Event.storeModelLoaded true :: evs, ?_⟩
  · have h1 := dispatchLoop_countP isStoreStopFlag (fun _ => rfl) (fun _ => rfl)
      (fun _ => rfl) (fun _ => rfl) env.steps ⟨[]⟩
    rw [hloop] at h1
    rw [hloop]
    simp only [loopTail, List.countP_append, List.countP_cons] at h1 ⊢
    rw [handshakeTrace_countP env isStoreStopFlag
      (fun e he => by cases e <;> simp_all [isConnPhaseEvent, isStoreStopFlag])
      rfl rfl rfl rfl rfl]
    rw [bootPreTrace_countP env.boot isStoreStopFlag
      (fun _ => rfl) (fun _ => rfl) (fun _ => rfl)]
    simp only [isStoreStopFlag] at h1 ⊢
    simp at h1 ⊢
    exact h1
  · rw [hloop]
    simp [loopTail, List.append_assoc]

/-- C7: the handshake token — the bytes `ready` plus newline — is
written and flushed exactly once, directly after the connection retry
phase (which emits only info logs, connect attempts and sleeps) and
before everything else: the handler registration, the heartbeat spawn
and every structured send or receive can only appear in the trace after
the write and flush, and no other write or flush ever occurs. -/
theorem handshake_first (env : Env) (k : Nat)
    (hc : (connectRetry env.connOk env.connFuel 0).2 = some k)
    (hw : env.handshake_write_ok = true) :
    ∃ rest, (main env).1 =
        Event.logInfo "runner started" :: Event.connectAttempt (env.connOk 0) ::
          ((connectRetry env.connOk env.connFuel 0).1 ++
            Event.writeBytes "ready\n" :: Event.flushStream :: rest) ∧
      (∀ e ∈ (connectRetry env.connOk env.connFuel 0).1,
        isConnPhaseEvent e = true) ∧
      rest.countP isWriteOrFlush = 0 := by
  have hmem := connectRetry_mem env.connOk env.connFuel 0
  have hbc : ∀ msg, ((bootPhase env.boot msg).1).countP isWriteOrFlush = 0 :=
    fun msg => bootPhase_countP env.boot msg isWriteOrFlush
      (fun _ => rfl) (fun _ => rfl) (fun _ => rfl) rfl
  have hdc : ∀ r, ((dispatchLoop r env.steps).1).countP isWriteOrFlush = 0 :=
    fun r => dispatchLoop_countP isWriteOrFlush (fun _ => rfl) (fun _ => rfl)
      (fun _ => rfl) (fun _ => rfl) env.steps r
  rw [main]
  rcases hf : env.handshake_flush_ok with _ | _
  · exact ⟨[], by simp [hc, hw, hf, List.append_assoc], hmem, rfl⟩
  · rcases hctrl : env.ctrlc_ok with _ | _
    · exact ⟨[Event.setCtrlcHandler],
        by simp [hc, hw, hf, hctrl, List.append_assoc], hmem, by decide⟩
    · rcases hfirst : env.firstRecv with e | msg
      · exact ⟨[Event.setCtrlcHandler, Event.logInfo "Runner connected to socket",
          Event.spawnHeartbeat, Event.recvMsg (.error e)],
          by simp [hc, hw, hf, hctrl, hfirst, List.append_assoc], hmem,
          by simp [isWriteOrFlush]⟩
      · rcases hb : (bootPhase env.boot msg).2 with r | _ | _
        · rcases hd : (dispatchLoop r env.steps).2 with _ | _ | _
          · refine ⟨Event.setCtrlcHandler ::
              Event.logInfo "Runner connected to socket" ::
              Event.spawnHeartbeat :: Event.recvMsg (.ok msg) ::
              ((bootPhase env.boot msg).1 ++ Event.storeModelLoaded true ::
                ((dispatchLoop r env.steps).1 ++
                  [Event.storeStopFlag true, Event.logInfo "Runner finished"])),
              by simp [hc, hw, hf, hctrl, hfirst, hb, hd, List.append_assoc],
              hmem, ?_⟩
            simp [List.countP_cons, List.countP_append, isWriteOrFlush, hbc, hdc]
          · refine ⟨Event.setCtrlcHandler ::
              Event.logInfo "Runner connected to socket" ::
              Event.spawnHeartbeat :: Event.recvMsg (.ok msg) ::
              ((bootPhase env.boot msg).1 ++ Event.storeModelLoaded true ::
                (dispatchLoop r env.steps).1),
              by simp [hc, hw, hf, hctrl, hfirst, hb, hd, List.append_assoc],
              hmem, ?_⟩
            simp [List.countP_cons, List.countP_append, isWriteOrFlush, hbc, hdc]
          · refine ⟨Event.setCtrlcHandler ::
              Event.logInfo "Runner connected to socket" ::
              Event.spawnHeartbeat :: Event.recvMsg (.ok msg) ::
              ((bootPhase env.boot msg).1 ++ Event.storeModelLoaded true ::
                (dispatchLoop r env.steps).1),
              by simp [hc, hw, hf, hctrl, hfirst, hb, hd, List.append_assoc],
              hmem, ?_⟩
            simp [List.countP_cons, List.countP_append, isWriteOrFlush, hbc, hdc]
        · refine ⟨Event.setCtrlcHandler ::
            Event.logInfo "Runner connected to socket" ::
            Event.spawnHeartbeat :: Event.recvMsg (.ok msg) ::
            (bootPhase env.boot msg).1,
            by simp [hc, hw, hf, hctrl, hfirst, hb, List.append_assoc],
            hmem, ?_⟩
          simp [List.countP_cons, List.countP_append, isWriteOrFlush, hbc]
        · refine ⟨Event.setCtrlcHandler ::
            Event.logInfo "Runner connected to socket" ::
            Event.spawnHeartbeat :: Event.recvMsg (.ok msg) ::
            (bootPhase env.boot msg).1,
            by simp [hc, hw, hf, hctrl, hfirst, hb, List.append_assoc],
            hmem, ?_⟩
          simp [List.countP_cons, List.countP_append, isWriteOrFlush, hbc]

/-! Concrete runs used to witness the theorems above. -/

/-- A concrete well-formed bootstrap request. -/
def reqW : InitRequest :=
  { rank := 0, num_shards := 1, dev_id := 0, model_type := 0,
    model_pathes := ["model"], is_gguf := false, dtype := 0, econfig := 0,
    config := 0, is_rope_i := false }

/-- A bootstrap oracle where every fallible step succeeds. -/
def bootW : BootEnv :=
  { new_device_ok := true, feature_nccl := false, comm_ok := false,
    remote_reporter_ok := true, var_builder_ok := true, model_runner_ok := true,
    feature_graph := false, warmup_ok := false, send_init_ok := true }

/-- A successful decode request step. -/
def stepRunW : StepEnv :=
  { recv := .ok (.RunDecode [3] false), run_ok := true, run_outputs := [7],
    send_ok := true }

/-- A shutdown step. -/
def stepShutW : StepEnv :=
  { recv := .ok .Shutdown, run_ok := true, run_outputs := [], send_ok := true }

/-- A run request whose execution fails. -/
def stepFailW : StepEnv :=
  { recv := .ok (.RunPrefill [1] true), run_ok := false, run_outputs := [],
    send_ok := true }

/-- An unexpected steady-state message step. -/
def stepUnexpW : StepEnv :=
  { recv := .ok (.InitAck false), run_ok := true, run_outputs := [],
    send_ok := true }

/-- A fully successful run: immediate connect, Init first, one decode,
then shutdown. -/
def envW : Env :=
  { connOk := fun _ => true, connFuel := 0, handshake_write_ok := true,
    handshake_flush_ok := true, ctrlc_ok := true,
    firstRecv := .ok (.Init reqW), boot := bootW,
    steps := [stepRunW, stepShutW] }

/-- Same run but with a non-`Init` first message. -/
def envW4 : Env := { envW with firstRecv := .ok .Shutdown }

/-- Same run but the single dispatch step is a failing run request. -/
def envW6 : Env := { envW with steps := [stepFailW] }

theorem bootstrap_init_ack_witness :
    ∃ pre,
      (main envW).1 =
        pre ++ Event.sendMsg (.InitAck true) :: Event.storeModelLoaded true ::
          ((dispatchLoop ⟨[]⟩ envW.steps).1 ++
            loopTail (dispatchLoop ⟨[]⟩ envW.steps).2) ∧
      pre.countP isSendInitAck = 0 ∧ pre.countP isStoreModelLoaded = 0 ∧
      ((dispatchLoop ⟨[]⟩ envW.steps).1 ++
          loopTail (dispatchLoop ⟨[]⟩ envW.steps).2).countP isSendInitAck = 0 ∧
      ((dispatchLoop ⟨[]⟩ envW.steps).1 ++
          loopTail (dispatchLoop ⟨[]⟩ envW.steps).2).countP isStoreModelLoaded = 0 :=
  bootstrap_init_ack envW reqW 0 rfl rfl rfl rfl rfl rfl

theorem dispatch_alternation_witness :
    ((dispatchStep ⟨[]⟩ stepRunW).1.countP isSendRunResponse =
        expectedResponses stepRunW.recv) ∧
      (dispatchStep ⟨[]⟩ stepRunW).1.countP isRecvEvent = 1 ∧
      (dispatchStep ⟨[]⟩ stepRunW).1.head? = some (Event.recvMsg stepRunW.recv) ∧
      ∀ m rest, stepRunW.recv = .ok m → isRunRequest m = true →
        dispatchLoop ⟨[]⟩ (stepRunW :: rest) =
          (Event.recvMsg stepRunW.recv ::
             Event.sendMsg (.RunResponse stepRunW.run_outputs) ::
             (dispatchLoop ⟨[]⟩ rest).1, (dispatchLoop ⟨[]⟩ rest).2) :=
  dispatch_alternation ⟨[]⟩ stepRunW rfl rfl

theorem ctrlc_decision_witness :
    modelLoadedAfter ((main envW).1.take 19) = true :=
  (ctrlc_decision true).2 envW 13 19 (by decide) (by decide)

theorem nonInit_first_fatal_witness :
    (main envW4).2 = .panicked ∧
      (main envW4).1.countP isSendInitAck = 0 ∧
      (main envW4).1.countP isStoreModelLoaded = 0 :=
  nonInit_first_fatal envW4 .Shutdown 0 rfl rfl rfl rfl rfl rfl

theorem loop_exit_clean_witness :
    (main envW).2 = .exited 0 ∧
      ∃ pre, (main envW).1 =
          pre ++ [Event.storeStopFlag true, Event.logInfo "Runner finished"] ∧
        pre.countP isStoreStopFlag = 0 :=
  loop_exit_clean envW reqW 0 rfl rfl rfl rfl rfl rfl rfl

theorem run_failure_propagates_witness :
    (main envW6).2 = .errored ∧
      (main envW6).1.countP isStoreStopFlag = 0 ∧
      ∃ p, (main envW6).1 = p ++ [Event.recvMsg stepFailW.recv] :=
  run_failure_propagates envW6 reqW 0 rfl rfl rfl rfl rfl rfl [] []
    stepFailW (.RunPrefill [1] true) rfl (by simp) rfl rfl rfl

theorem handshake_first_witness :
    ∃ rest, (main envW).1 =
        Event.logInfo "runner started" :: Event.connectAttempt (envW.connOk 0) ::
          ((connectRetry envW.connOk envW.connFuel 0).1 ++
            Event.writeBytes "ready\n" :: Event.flushStream :: rest) ∧
      (∀ e ∈ (connectRetry envW.connOk envW.connFuel 0).1,
        isConnPhaseEvent e = true) ∧
      rest.countP isWriteOrFlush = 0 :=
  handshake_first envW 0 rfl rfl

theorem connect_retry_spec_witness :
    (connectRetry (fun n => decide (n = 2)) 5 0).2 = some 2 :=
  ((connect_retry_spec (fun n => decide (n = 2)) 5 0).2 2).mpr
    ⟨by decide, by decide, by decide,
      by intro j h1 h2; interval_cases j <;> decide⟩

theorem steady_unexpected_nonfatal_witness :
    dispatchStep ⟨[]⟩ stepUnexpW =
        ([Event.recvMsg (.ok (.InitAck false)),
          Event.logError "Unexpected message type"], .cont ⟨[]⟩) ∧
      (∀ rest, dispatchLoop ⟨[]⟩ (stepUnexpW :: rest) =
        (Event.recvMsg (.ok (.InitAck false)) ::
           Event.logError "Unexpected message type" ::
           (dispatchLoop ⟨[]⟩ rest).1, (dispatchLoop ⟨[]⟩ rest).2)) ∧
      ∀ m', isInitMsg m' = false → (bootPhase bootW m').2 = .panicked :=
  steady_unexpected_nonfatal ⟨[]⟩ bootW stepUnexpW (.InitAck false) rfl rfl

end Runner
